import Mathlib

/-!
Shallow embedding of the user-view handlers of `leaf/views/rbac/user.py`:
the RBAC permission gate, the secondary-index registry operations and the
avatar asset store, together with theorems about them.

Handlers follow the source's read-modify-write pattern: each takes the
loaded `User` document and returns the persisted post-state together with
the handler's response value.  Components whose code lives outside the
view file (the `wrapper.require` permission gate and the
`functions.Create.index` / `functions.Delete.index` repository functions)
are modelled from the specification, and say so in their doc comments.
-/

namespace Leaf

/-- `UserIndex(typeid, value, description, extension)` — a secondary typed
lookup index attached to a user (`leaf.rbac.model.UserIndex`).  The
`extension` payload is opaque to the core; it is kept as its raw string. -/
structure UserIndex where
  typeid : String
  value : String
  description : String
  extension : String
deriving DecidableEq, Repr

/-- One stored variant of an avatar (original or thumbnail): the binary
content and its `upload_date` last-modified timestamp (the fields of the
gridfs file handler the view reads). -/
structure Variant where
  content : List Nat
  upload_date : String
deriving DecidableEq, Repr

/-- The avatar binary pair owned by a user: `gridout` is whether a stored
file object is present, `size` its byte length (`0` means "no avatar
present"), `format` the image codec identifier, plus the two variants. -/
structure Avatar where
  gridout : Bool
  size : Nat
  format : String
  original : Variant
  thumbnail : Variant
deriving DecidableEq, Repr

/-- The persisted user document (`leaf.rbac.model.User`): identity, the
free-form `informations` map (association list in submission order), the
`disabled` flag, the ordered index list and the avatar. -/
structure User where
  id : String
  informations : List (String × String)
  disabled : Bool
  indexs : List UserIndex
  avatar : Avatar
deriving DecidableEq, Repr

/-- The error raised by `update_user_index` when the requested `typeid` is
not in the index-type registry (`leaf.rbac.error.UndefinedUserIndex`). -/
inductive UserApiError where
  | UndefinedUserIndex (typeid : String)
deriving DecidableEq, Repr

/-- Outcome of the avatar `GET` handler: `404`, `304`, or `200` with the
binary stream, its MIME type and its `Last-Modified` timestamp. -/
inductive FetchResult where
  | NotFound
  | NotModified
  | Content (stream : List Nat) (mimeType : String) (lastModified : String)
deriving DecidableEq, Repr

/-- Decision of the permission gate; denial is `PermissionDenied`. -/
inductive AuthDecision where
  | Allow
  | PermissionDenied
deriving DecidableEq, Repr

/-- The authenticated caller: identity plus effective permission set. -/
structure Caller where
  identity : String
  permissions : List String
deriving DecidableEq, Repr

/-- Modelled from the spec: the permission gate applied by
`wrapper.require` (`leaf.api.wrapper`, not under `src/`).  §4.2: "allow if
`requiredPermission` is a member of `caller.permissions`; otherwise, if
`selfServiceAllowed` is set and `caller.identity == resolvedTarget`,
allow; otherwise deny with `PermissionDenied`." -/
def authorize (caller : Caller) (requiredPermission : String)
    (selfServiceAllowed : Bool) (resolvedTarget : String) : AuthDecision :=
  if caller.permissions.contains requiredPermission then .Allow
  else if selfServiceAllowed && (caller.identity == resolvedTarget) then .Allow
  else .PermissionDenied

/-- Modelled from the spec: `functions.Create.index`
(`leaf.rbac.functions.user`, not under `src/`).  §4.3: "look up the user's
current index list, remove any existing entry with the same `typeid`,
append a new entry built from the registry's current `description` for
that type, persist, return the user's full updated index list." -/
def Create.index (user : User) (index : UserIndex) : User × List UserIndex :=
  let updated := user.indexs.filter (fun i => i.typeid != index.typeid) ++ [index]
  ({ user with indexs := updated }, updated)

/-- Modelled from the spec: `functions.Delete.index`
(`leaf.rbac.functions.user`, not under `src/`).  §4.3: "removes all
entries matching `typeid` (0 or 1 by invariant) and persists; no error if
none matched". -/
def Delete.index (user : User) (typeid : String) : User × List UserIndex :=
  let updated := user.indexs.filter (fun i => i.typeid != typeid)
  ({ user with indexs := updated }, updated)

/-- `update_user_informations` (PUT `/users/{id}/informations`): assigns
the submitted form dictionary to `user.informations` and saves.  The
returned `User` is the persisted post-state. -/
def update_user_informations (user : User) (form : List (String × String)) : User :=
  { user with informations := form }

/-- `update_user_index` (POST `/users/{id}/indexs`): with `registry` the
`typeid → description` mapping from `rbac.settings.User.Indexs`, raises
`UndefinedUserIndex` when `typeid` is not a registry key, otherwise builds
the `UserIndex` from the registry's `description` and delegates to
`functions.Create.index`.  Returns the persisted post-state user and the
handler's response. -/
def update_user_index (registry : List (String × String)) (user : User)
    (typeid value extension : String) : User × Except UserApiError (List UserIndex) :=
  if (registry.lookup typeid).isNone then
    (user, .error (.UndefinedUserIndex typeid))
  else
    let description := (registry.lookup typeid).getD ""
    let index : UserIndex := ⟨typeid, value, description, extension⟩
    let result := Create.index user index
    (result.1, .ok result.2)

/-- `delete_user_index` (DELETE `/users/{id}/indexs/{typeid}`): delegates
to `functions.Delete.index`. -/
def delete_user_index (user : User) (typeid : String) : User × List UserIndex :=
  Delete.index user typeid

/-- `user.avatar.replace(blob)` followed by `user.save()`: overwrite the
binary, regenerate the thumbnail variant, stamp both variants with the
upload time `now`; the stored size becomes the blob's byte length. -/
def Avatar.replaceWith (a : Avatar) (blob thumb : List Nat) (now : String) : Avatar :=
  { a with size := blob.length,
           original := ⟨blob, now⟩,
           thumbnail := ⟨thumb, now⟩ }

/-- `update_user_avatar` (POST `/users/avatar/{id}`): if a stored file
object exists (`user.avatar.gridout`) and an uploaded blob was supplied,
replace the avatar, save, and return the new byte length; otherwise
return `0` without mutating.  `thumbOf` is the thumbnail derivation and
`now` the upload timestamp. -/
def update_user_avatar (thumbOf : List Nat → List Nat) (now : String)
    (user : User) (avatar : Option (List Nat)) : User × Nat :=
  match avatar with
  | some blob =>
      if user.avatar.gridout then
        let updated := { user with avatar := user.avatar.replaceWith blob (thumbOf blob) now }
        (updated, updated.avatar.size)
      else (user, 0)
  | none => (user, 0)

/-- `user.avatar.delete()`: both variants are removed; no stored file
object remains and the size becomes `0`. -/
def Avatar.deleteBoth (a : Avatar) : Avatar :=
  { a with gridout := false, size := 0,
           original := ⟨[], ""⟩, thumbnail := ⟨[], ""⟩ }

/-- `delete_user_avatar` (DELETE `/users/avatar/{id}`): if
`user.avatar.size` is truthy (nonzero), delete both variants, save and
return `true`; otherwise return `false` without mutating. -/
def delete_user_avatar (user : User) : User × Bool :=
  if user.avatar.size != 0 then
    ({ user with avatar := user.avatar.deleteBoth }, true)
  else (user, false)

/-- ASCII lower-casing of a string, character by character
(`str.lower()` applied to the stored format identifier). -/
def lowerString (s : String) : String := ⟨s.data.map Char.toLower⟩

/-- `get_user_avatar` (GET `/users/avatar/{id}`): `404` when no avatar is
present (`size == 0`); otherwise select the variant per the `thumbnail`
query flag; `304` when the `If-Modified-Since` header value equals the
selected variant's `upload_date` (`none` when the header is absent never
matches); otherwise the binary stream with MIME type `"image/"` followed
by the lower-cased format and `Last-Modified` set to `upload_date`. -/
def get_user_avatar (user : User) (is_thumbnail : Bool)
    (ifModifiedSince : Option String) : FetchResult :=
  if user.avatar.size = 0 then .NotFound
  else
    let handler := if is_thumbnail then user.avatar.thumbnail else user.avatar.original
    if ifModifiedSince = some handler.upload_date then .NotModified
    else .Content handler.content ("image/" ++ lowerString user.avatar.format) handler.upload_date

/-- The §3 data-model invariant: at most one `UserIndex` per `typeid` in a
user's index list (no two entries share a `typeid`). -/
def atMostOnePerType (l : List UserIndex) : Prop :=
  l.Pairwise (fun a b => a.typeid ≠ b.typeid)

instance (l : List UserIndex) : Decidable (atMostOnePerType l) :=
  List.instDecidablePairwise l

/-! ## Theorems -/

/-- Entries surviving the removal of a `typeid` never match that `typeid`. -/
lemma filter_eq_of_filter_ne (l : List UserIndex) (t : String) :
    (l.filter (fun i => i.typeid != t)).filter (fun i => i.typeid == t) = [] := by
  rw [List.filter_filter]
  simp [bne]

/-- Removing every `typeid`-match and appending one fresh `typeid` entry
keeps the at-most-one-per-`typeid` invariant. -/
lemma atMostOnePerType_create (u : User) (index : UserIndex)
    (hinv : atMostOnePerType u.indexs) :
    atMostOnePerType (Create.index u index).1.indexs := by
  unfold atMostOnePerType Create.index
  simp only [List.pairwise_append]
  refine ⟨hinv.filter _, List.pairwise_singleton _ _, ?_⟩
  intro a ha b hb
  rcases List.mem_filter.mp ha with ⟨-, hne⟩
  rcases List.mem_singleton.mp hb with rfl
  simpa [bne] using hne

/-- Claim C3: for every caller whose permission set does not contain the
operation's required permission, when the operation's `selfServiceAllowed`
flag is false, `authorize` denies with `PermissionDenied`, for every
resolved target. -/
theorem authorize_denies_without_permission (caller : Caller)
    (requiredPermission resolvedTarget : String)
    (h : requiredPermission ∉ caller.permissions) :
    authorize caller requiredPermission false resolvedTarget = .PermissionDenied := by
  simp [authorize, h]

theorem authorize_denies_without_permission_witness :
    "leaf.views.rbac.user.update" ∉ (Caller.mk "alice" ["leaf.views.rbac.user.get"]).permissions ∧
    authorize (Caller.mk "alice" ["leaf.views.rbac.user.get"])
        "leaf.views.rbac.user.update" false "bob" = .PermissionDenied :=
  ⟨by decide,
   authorize_denies_without_permission
     (Caller.mk "alice" ["leaf.views.rbac.user.get"])
     "leaf.views.rbac.user.update" "bob" (by decide)⟩

/-- Claim C4: for every caller and every operation with
`selfServiceAllowed = true`, if the resolved target identity equals the
caller's own identity then `authorize` allows, regardless of whether the
caller's permission set contains the required permission. -/
theorem authorize_allows_selfservice (caller : Caller) (requiredPermission : String) :
    authorize caller requiredPermission true caller.identity = .Allow := by
  by_cases h : caller.permissions.contains requiredPermission <;>
    simp [authorize, h]

/-- Claim C5: for every user and every `typeid` that is not a member of
the index-type registry, `update_user_index` fails with
`UndefinedUserIndex` and leaves the user's state (in particular the index
list) unchanged. -/
theorem update_user_index_undefined_type (registry : List (String × String))
    (user : User) (typeid value extension : String)
    (h : registry.lookup typeid = none) :
    update_user_index registry user typeid value extension =
      (user, .error (.UndefinedUserIndex typeid)) := by
  simp [update_user_index, h]

theorem update_user_index_undefined_type_witness :
    ([("mail", "email address")] : List (String × String)).lookup "phone" = none ∧
    update_user_index [("mail", "email address")]
        (User.mk "u1" [] false [⟨"mail", "a@b", "email address", "\x7b\x7d"⟩]
          (Avatar.mk false 0 "" ⟨[], ""⟩ ⟨[], ""⟩))
        "phone" "123" "\x7b\x7d" =
      (User.mk "u1" [] false [⟨"mail", "a@b", "email address", "\x7b\x7d"⟩]
          (Avatar.mk false 0 "" ⟨[], ""⟩ ⟨[], ""⟩),
       .error (.UndefinedUserIndex "phone")) :=
  ⟨by decide,
   update_user_index_undefined_type [("mail", "email address")]
     (User.mk "u1" [] false [⟨"mail", "a@b", "email address", "\x7b\x7d"⟩]
       (Avatar.mk false 0 "" ⟨[], ""⟩ ⟨[], ""⟩))
     "phone" "123" "\x7b\x7d" (by decide)⟩

/-- Claim C8: for every user whose avatar size is `0` (no avatar present),
`get_user_avatar` returns `NotFound` (404), for both values of the
thumbnail flag and for every `If-Modified-Since` value. -/
theorem get_user_avatar_absent_notfound (user : User) (is_thumbnail : Bool)
    (ifModifiedSince : Option String) (h : user.avatar.size = 0) :
    get_user_avatar user is_thumbnail ifModifiedSince = .NotFound := by
  simp [get_user_avatar, h]

theorem get_user_avatar_absent_notfound_witness :
    (User.mk "u1" [] false [] (Avatar.mk false 0 "png" ⟨[], "t0"⟩ ⟨[], "t0"⟩)).avatar.size = 0 ∧
    get_user_avatar
        (User.mk "u1" [] false [] (Avatar.mk false 0 "png" ⟨[], "t0"⟩ ⟨[], "t0"⟩))
        true (some "t0") = .NotFound :=
  ⟨rfl,
   get_user_avatar_absent_notfound
     (User.mk "u1" [] false [] (Avatar.mk false 0 "png" ⟨[], "t0"⟩ ⟨[], "t0"⟩))
     true (some "t0") rfl⟩

/-- Claim C10: for every user, `update_user_informations` replaces the
entire `informations` map with exactly the submitted form key-value
pairs; every previously stored key not present in the request is removed
(full replacement, not a merge). -/
theorem update_user_informations_full_replacement (user : User)
    (form : List (String × String)) :
    (update_user_informations user form).informations = form ∧
    ∀ k : String, form.lookup k = none →
      ((update_user_informations user form).informations.lookup k = none) := by
  refine ⟨rfl, ?_⟩
  intro k hk
  simpa [update_user_informations] using hk

theorem update_user_informations_full_replacement_witness :
    (update_user_informations
        (User.mk "u1" [("old", "1"), ("kept", "2")] false []
          (Avatar.mk false 0 "" ⟨[], ""⟩ ⟨[], ""⟩))
        [("kept", "3")]).informations = [("kept", "3")] ∧
    ([("kept", "3")] : List (String × String)).lookup "old" = none ∧
    (update_user_informations
        (User.mk "u1" [("old", "1"), ("kept", "2")] false []
          (Avatar.mk false 0 "" ⟨[], ""⟩ ⟨[], ""⟩))
        [("kept", "3")]).informations.lookup "old" = none :=
  ⟨(update_user_informations_full_replacement
      (User.mk "u1" [("old", "1"), ("kept", "2")] false []
        (Avatar.mk false 0 "" ⟨[], ""⟩ ⟨[], ""⟩)) [("kept", "3")]).1,
   by decide,
   (update_user_informations_full_replacement
      (User.mk "u1" [("old", "1"), ("kept", "2")] false []
        (Avatar.mk false 0 "" ⟨[], ""⟩ ⟨[], ""⟩)) [("kept", "3")]).2
     "old" (by decide)⟩

/-- Claim C6: after `update_user_index` for a registered `typeid` `t` with
value `v1` followed by another for the same `t` with value `v2`, the
user's index list contains exactly one entry with `typeid` `t`, and its
value is `v2`; more generally creation replaces rather than appends, so
at most one `UserIndex` per `typeid` exists at any time. -/
theorem update_user_index_replaces (registry : List (String × String))
    (user : User) (t v1 v2 e1 e2 d : String)
    (hreg : registry.lookup t = some d) :
    ((update_user_index registry
        (update_user_index registry user t v1 e1).1 t v2 e2).1.indexs.filter
          (fun i => i.typeid == t)) = [⟨t, v2, d, e2⟩] ∧
    (∀ (u : User) (index : UserIndex), atMostOnePerType u.indexs →
      atMostOnePerType (Create.index u index).1.indexs) := by
  refine ⟨?_, fun u index hinv => atMostOnePerType_create u index hinv⟩
  simp only [update_user_index, hreg, Option.isNone_some, Bool.false_eq_true,
    if_false, Option.getD_some, Create.index, List.filter_append]
  rw [filter_eq_of_filter_ne]
  simp

theorem update_user_index_replaces_witness :
    ([("mail", "email address")] : List (String × String)).lookup "mail" =
      some "email address" ∧
    ((update_user_index [("mail", "email address")]
        (update_user_index [("mail", "email address")]
          (User.mk "u1" [] false [] (Avatar.mk false 0 "" ⟨[], ""⟩ ⟨[], ""⟩))
          "mail" "v1" "e1").1 "mail" "v2" "e2").1.indexs.filter
          (fun i => i.typeid == "mail")) = [⟨"mail", "v2", "email address", "e2"⟩] ∧
    atMostOnePerType (Create.index
      (User.mk "u2" [] false [⟨"mail", "a@b", "email address", "e"⟩]
        (Avatar.mk false 0 "" ⟨[], ""⟩ ⟨[], ""⟩))
      ⟨"mail", "c@d", "email address", "e"⟩).1.indexs :=
  ⟨by decide,
   (update_user_index_replaces [("mail", "email address")]
      (User.mk "u1" [] false [] (Avatar.mk false 0 "" ⟨[], ""⟩ ⟨[], ""⟩))
      "mail" "v1" "v2" "e1" "e2" "email address" (by decide)).1,
   (update_user_index_replaces [("mail", "email address")]
      (User.mk "u1" [] false [] (Avatar.mk false 0 "" ⟨[], ""⟩ ⟨[], ""⟩))
      "mail" "v1" "v2" "e1" "e2" "email address" (by decide)).2
     (User.mk "u2" [] false [⟨"mail", "a@b", "email address", "e"⟩]
        (Avatar.mk false 0 "" ⟨[], ""⟩ ⟨[], ""⟩))
     ⟨"mail", "c@d", "email address", "e"⟩ (by decide)⟩

/-- Claim C7: for every user and `typeid`, `delete_user_index` is
idempotent — applying it twice yields the same post-state as applying it
once — and it succeeds (returning the unchanged user and list) when no
entry with that `typeid` exists. -/
theorem delete_user_index_idempotent (user : User) (typeid : String) :
    delete_user_index (delete_user_index user typeid).1 typeid =
      delete_user_index user typeid ∧
    (user.indexs.filter (fun i => i.typeid == typeid) = [] →
      delete_user_index user typeid = (user, user.indexs)) := by
  constructor
  · simp only [delete_user_index, Delete.index, List.filter_filter]
    simp
  · intro h
    have hall : ∀ i ∈ user.indexs, (i.typeid != typeid) = true := by
      intro i hi
      have := List.filter_eq_nil_iff.mp h i hi
      simpa [bne] using this
    simp only [delete_user_index, Delete.index, List.filter_eq_self.mpr hall]

theorem delete_user_index_idempotent_witness :
    delete_user_index
        (delete_user_index
          (User.mk "u1" [] false
            [⟨"mail", "a@b", "email address", "e"⟩, ⟨"qq", "77", "qq id", "e"⟩]
            (Avatar.mk false 0 "" ⟨[], ""⟩ ⟨[], ""⟩)) "mail").1 "mail" =
      delete_user_index
        (User.mk "u1" [] false
          [⟨"mail", "a@b", "email address", "e"⟩, ⟨"qq", "77", "qq id", "e"⟩]
          (Avatar.mk false 0 "" ⟨[], ""⟩ ⟨[], ""⟩)) "mail" ∧
    delete_user_index
        (User.mk "u3" [] false [⟨"qq", "77", "qq id", "e"⟩]
          (Avatar.mk false 0 "" ⟨[], ""⟩ ⟨[], ""⟩)) "phone" =
      (User.mk "u3" [] false [⟨"qq", "77", "qq id", "e"⟩]
          (Avatar.mk false 0 "" ⟨[], ""⟩ ⟨[], ""⟩),
       [⟨"qq", "77", "qq id", "e"⟩]) :=
  ⟨(delete_user_index_idempotent
      (User.mk "u1" [] false
        [⟨"mail", "a@b", "email address", "e"⟩, ⟨"qq", "77", "qq id", "e"⟩]
        (Avatar.mk false 0 "" ⟨[], ""⟩ ⟨[], ""⟩)) "mail").1,
   (delete_user_index_idempotent
      (User.mk "u3" [] false [⟨"qq", "77", "qq id", "e"⟩]
        (Avatar.mk false 0 "" ⟨[], ""⟩ ⟨[], ""⟩)) "phone").2 (by decide)⟩

/-- Claim C1: for every user with a stored avatar, `get_user_avatar`
returns `NotModified` (304) if and only if the `If-Modified-Since` value
exactly equals the selected variant's stored `upload_date`; for any other
value — including one strictly later than `upload_date` — it returns the
full `Content` (200) with the binary body, `Last-Modified` set to
`upload_date`, and MIME type `"image/"` followed by the avatar's
(lower-cased) format. -/
theorem get_user_avatar_conditional (user : User) (is_thumbnail : Bool)
    (ifModifiedSince : Option String) (h : user.avatar.size ≠ 0) :
    (get_user_avatar user is_thumbnail ifModifiedSince = .NotModified ↔
      ifModifiedSince =
        some (if is_thumbnail then user.avatar.thumbnail
              else user.avatar.original).upload_date) ∧
    (ifModifiedSince ≠
        some (if is_thumbnail then user.avatar.thumbnail
              else user.avatar.original).upload_date →
      get_user_avatar user is_thumbnail ifModifiedSince =
        .Content
          (if is_thumbnail then user.avatar.thumbnail
           else user.avatar.original).content
          ("image/" ++ lowerString user.avatar.format)
          (if is_thumbnail then user.avatar.thumbnail
           else user.avatar.original).upload_date) := by
  by_cases him : ifModifiedSince =
      some (if is_thumbnail then user.avatar.thumbnail
            else user.avatar.original).upload_date
  · constructor
    · simp [get_user_avatar, h, him]
    · intro hne
      exact absurd him hne
  · constructor
    · simp [get_user_avatar, h, him]
    · intro _
      simp [get_user_avatar, h, him]

theorem get_user_avatar_conditional_witness :
    get_user_avatar
        (User.mk "u1" [] false []
          (Avatar.mk true 1024 "PNG" ⟨[7], "t1"⟩ ⟨[8], "t2"⟩))
        false (some "t1") = .NotModified ∧
    get_user_avatar
        (User.mk "u1" [] false []
          (Avatar.mk true 1024 "PNG" ⟨[7], "t1"⟩ ⟨[8], "t2"⟩))
        false (some "t9") = .Content [7] "image/png" "t1" :=
  ⟨(get_user_avatar_conditional
      (User.mk "u1" [] false []
        (Avatar.mk true 1024 "PNG" ⟨[7], "t1"⟩ ⟨[8], "t2"⟩))
      false (some "t1") (by decide)).1.mpr (by decide),
   (get_user_avatar_conditional
      (User.mk "u1" [] false []
        (Avatar.mk true 1024 "PNG" ⟨[7], "t1"⟩ ⟨[8], "t2"⟩))
      false (some "t9") (by decide)).2 (by decide)⟩

/-- Claim C2: for every user with no prior avatar (no stored file object;
`size == 0` by the §3 invariant), `update_user_avatar` performs no
mutation and returns `0`, even when a blob is supplied; the same holds
for every user when no blob is supplied.  Replacement (overwrite,
persist, return the new byte length) occurs exactly when a prior avatar
exists and a blob is supplied. -/
theorem update_user_avatar_replace_only (thumbOf : List Nat → List Nat)
    (now : String) (user : User) (blob : Option (List Nat))
    (hinv : user.avatar.gridout = true ↔ user.avatar.size ≠ 0) :
    (user.avatar.size = 0 → update_user_avatar thumbOf now user blob = (user, 0)) ∧
    (update_user_avatar thumbOf now user none = (user, 0)) ∧
    (∀ b : List Nat, user.avatar.size ≠ 0 →
      update_user_avatar thumbOf now user (some b) =
        ({ user with avatar := user.avatar.replaceWith b (thumbOf b) now },
         b.length)) := by
  refine ⟨?_, rfl, ?_⟩
  · intro h0
    have hg : user.avatar.gridout = false := by
      by_cases hgt : user.avatar.gridout = true
      · exact absurd h0 (hinv.mp hgt)
      · simpa using hgt
    cases blob with
    | none => rfl
    | some b => simp [update_user_avatar, hg]
  · intro b hb
    have hg : user.avatar.gridout = true := hinv.mpr hb
    simp [update_user_avatar, hg, Avatar.replaceWith]

theorem update_user_avatar_replace_only_witness :
    update_user_avatar (fun b => b) "t2"
        (User.mk "u1" [] false []
          (Avatar.mk true 4 "PNG" ⟨[9, 9, 9, 9], "t1"⟩ ⟨[9], "t1"⟩))
        (some [1, 2, 3]) =
      (User.mk "u1" [] false []
          (Avatar.mk true 3 "PNG" ⟨[1, 2, 3], "t2"⟩ ⟨[1, 2, 3], "t2"⟩), 3) ∧
    update_user_avatar (fun b => b) "t2"
        (User.mk "u2" [] false []
          (Avatar.mk false 0 "" ⟨[], ""⟩ ⟨[], ""⟩))
        (some [1, 2, 3]) =
      (User.mk "u2" [] false [] (Avatar.mk false 0 "" ⟨[], ""⟩ ⟨[], ""⟩), 0) :=
  ⟨(update_user_avatar_replace_only (fun b => b) "t2"
      (User.mk "u1" [] false []
        (Avatar.mk true 4 "PNG" ⟨[9, 9, 9, 9], "t1"⟩ ⟨[9], "t1"⟩))
      (some [1, 2, 3]) (by decide)).2.2 [1, 2, 3] (by decide),
   (update_user_avatar_replace_only (fun b => b) "t2"
      (User.mk "u2" [] false [] (Avatar.mk false 0 "" ⟨[], ""⟩ ⟨[], ""⟩))
      (some [1, 2, 3]) (by decide)).1 (by decide)⟩

/-- Claim C9: for every user, `delete_user_avatar` returns `true` and
removes the avatar (both variants, persisting the change) exactly when
the user's avatar size is greater than `0`; when the size is `0` it
performs no mutation and returns `false`.  After a successful delete a
subsequent fetch returns `NotFound`. -/
theorem delete_user_avatar_spec (user : User) :
    ((delete_user_avatar user).2 = true ↔ 0 < user.avatar.size) ∧
    (0 < user.avatar.size →
      delete_user_avatar user =
        ({ user with avatar := user.avatar.deleteBoth }, true)) ∧
    (user.avatar.size = 0 → delete_user_avatar user = (user, false)) ∧
    (∀ (is_thumbnail : Bool) (ifModifiedSince : Option String),
      0 < user.avatar.size →
      get_user_avatar (delete_user_avatar user).1 is_thumbnail ifModifiedSince =
        .NotFound) := by
  by_cases h : user.avatar.size = 0
  · refine ⟨?_, ?_, fun _ => ?_, ?_⟩
    · simp [delete_user_avatar, h]
    · intro hpos
      exact absurd h (Nat.pos_iff_ne_zero.mp hpos)
    · simp [delete_user_avatar, h]
    · intro _ _ hpos
      exact absurd h (Nat.pos_iff_ne_zero.mp hpos)
  · refine ⟨?_, fun _ => ?_, fun h0 => absurd h0 h, ?_⟩
    · simp [delete_user_avatar, h, Nat.pos_iff_ne_zero]
    · simp [delete_user_avatar, h]
    · intro is_thumbnail ifModifiedSince _
      simp [delete_user_avatar, h, get_user_avatar, Avatar.deleteBoth]

theorem delete_user_avatar_spec_witness :
    delete_user_avatar
        (User.mk "u1" [] false []
          (Avatar.mk true 1024 "PNG" ⟨[7], "t1"⟩ ⟨[8], "t2"⟩)) =
      (User.mk "u1" [] false []
          (Avatar.mk false 0 "PNG" ⟨[], ""⟩ ⟨[], ""⟩), true) ∧
    get_user_avatar
        (delete_user_avatar
          (User.mk "u1" [] false []
            (Avatar.mk true 1024 "PNG" ⟨[7], "t1"⟩ ⟨[8], "t2"⟩))).1
        false none = .NotFound ∧
    delete_user_avatar
        (User.mk "u2" [] false [] (Avatar.mk false 0 "" ⟨[], ""⟩ ⟨[], ""⟩)) =
      (User.mk "u2" [] false [] (Avatar.mk false 0 "" ⟨[], ""⟩ ⟨[], ""⟩), false) :=
  ⟨(delete_user_avatar_spec
      (User.mk "u1" [] false []
        (Avatar.mk true 1024 "PNG" ⟨[7], "t1"⟩ ⟨[8], "t2"⟩))).2.1 (by decide),
   (delete_user_avatar_spec
      (User.mk "u1" [] false []
        (Avatar.mk true 1024 "PNG" ⟨[7], "t1"⟩ ⟨[8], "t2"⟩))).2.2.2
     false none (by decide),
   (delete_user_avatar_spec
      (User.mk "u2" [] false []
        (Avatar.mk false 0 "" ⟨[], ""⟩ ⟨[], ""⟩))).2.2.1 (by decide)⟩

end Leaf
